import Mathlib

/-!
Verification development for the 3D-text repository (text → extruded solids →
3MF export).  The definitions below are shallow embeddings of the TypeScript
sources; coordinates are modelled as exact rationals (`ℚ`), JS numbers being
IEEE doubles whose arithmetic on the inputs considered here is exact.

Sources embedded:
* `src/src/components/TextModel.tsx` (first document): contour classification
  (`calculateShapeArea`, `isPointInShape`, the area-sort / hole-containment
  logic of the `useMemo` body) and foreground/background mesh positioning;
* `src/unnamed/part_005` (second document): the explicit quadratic/cubic
  Bezier flattening loops;
* `src/src/main.tsx`: text/pill z-positioning with the product `overlap`;
* `src/src/ThreeMFExporter.ts` (first document): `transformCoordinates`,
  `generateVerticesXML`/`generateTrianglesXML` content, the filament colour
  selection of `generateProjectSettingsXML`, and the `export()` control flow;
* `src/src/utils/textMeshGenerator.ts`: the material built for text meshes.
-/

/-- A 2D point (the `{x, y}` objects / `THREE.Vector2` values of the source). -/
structure Pt where
  x : ℚ
  y : ℚ
deriving DecidableEq, Repr

/-- Consecutive cyclic pairs `(p_i, p_{(i+1) % n})` of a list; implements the
index arithmetic `j = (i + 1) % points.length` of the loops in
`calculateShapeArea` (TextModel.tsx lines 252-261). -/
def cyclicPairs (ps : List Pt) : List (Pt × Pt) :=
  match ps with
  | [] => []
  | p :: rest => ps.zip (rest ++ [p])

/-- TextModel.tsx lines 252-261 (`calculateShapeArea`): the shoelace sum
`area += x_i * y_j - x_j * y_i` over cyclically consecutive points, divided
by 2.  For the polygonal contours considered here, `shape.getPoints(n)`
returns exactly the polygon's points, so the contour is the point list. -/
def calculateShapeArea (ps : List Pt) : ℚ :=
  ((cyclicPairs ps).foldl (fun acc pq => acc + pq.1.x * pq.2.y - pq.2.x * pq.1.y) 0) / 2

/-- Pairs `(p_i, p_j)` with `j` the predecessor index, starting with
`(p_0, p_{n-1})`; implements the `for (let i = 0, j = points.length - 1; ...;
j = i++)` header of `isPointInShape` (TextModel.tsx lines 297-311). -/
def edgePairs (ps : List Pt) : List (Pt × Pt) :=
  match ps with
  | [] => []
  | _ => ps.zip (ps.getLastD ⟨0, 0⟩ :: ps.dropLast)

/-- TextModel.tsx lines 297-311 (`isPointInShape`): ray-casting point-in-polygon
test.  The division is only reached when one endpoint is strictly above and the
other at-or-below the ray, so the denominator is nonzero there and the `ℚ`
semantics agree with the JS float semantics on the guarded branch. -/
def isPointInShape (ps : List Pt) (pt : Pt) : Bool :=
  (edgePairs ps).foldl (fun inside e =>
    let xi := e.1.x; let yi := e.1.y
    let xj := e.2.x; let yj := e.2.y
    if (decide (yi > pt.y) != decide (yj > pt.y))
        && decide (pt.x < (xj - xi) * (pt.y - yi) / (yj - yi) + xi) then !inside else inside)
    false

/-- An axis-aligned bounding box (`THREE.Box2`). -/
structure Box2 where
  minX : ℚ
  minY : ℚ
  maxX : ℚ
  maxY : ℚ
deriving DecidableEq, Repr

/-- TextModel.tsx lines 87-88: `new THREE.Box2()` expanded by every point of the
contour (`expandByPoint`).  `none` models the empty `Box2`
(min = +Infinity, max = -Infinity), which never arises for the nonempty
contours the classifier builds. -/
def computeBBox (ps : List Pt) : Option Box2 :=
  ps.foldl (fun b p =>
    match b with
    | none => some ⟨p.x, p.y, p.x, p.y⟩
    | some b => some ⟨min b.minX p.x, min b.minY p.y, max b.maxX p.x, max b.maxY p.y⟩) none

/-- TextModel.tsx lines 112-115: the bounding-box containment test
`holeBBox.min.x >= shapeBBox.min.x && holeBBox.max.x <= shapeBBox.max.x && ...`.
The `none` cases reproduce the comparisons against the infinities of an empty
`THREE.Box2`. -/
def bboxContained (hole outer : Option Box2) : Bool :=
  match hole, outer with
  | some h, some o =>
      decide (h.minX ≥ o.minX) && decide (h.maxX ≤ o.maxX) &&
      decide (h.minY ≥ o.minY) && decide (h.maxY ≤ o.maxY)
  | none, _ => true
  | some _, none => false

/-- The per-contour record built at TextModel.tsx lines 85-95:
`{ shape, area: Math.abs(area), isHole: area > 0, bbox }`. -/
structure ShapeInfo where
  shape : List Pt
  area : ℚ
  isHole : Bool
  bbox : Option Box2
deriving DecidableEq, Repr

/-- TextModel.tsx lines 85-95: area, the absolute-area sort key, the winding
flag `isHole: area > 0` (source comment: "Positive area means it's a hole in
OpenType.js") and the bounding box. -/
def mkShapeInfo (c : List Pt) : ShapeInfo :=
  ⟨c, |calculateShapeArea c|, decide (calculateShapeArea c > 0), computeBBox c⟩

/-- Stable insertion of an element into a list already sorted by `area`
descending (element goes after all strictly larger areas, before equal ones,
preserving original relative order of equal keys). -/
def insertByAreaDesc (x : ShapeInfo) : List ShapeInfo → List ShapeInfo
  | [] => [x]
  | y :: ys => if decide (y.area > x.area) then y :: insertByAreaDesc x ys else x :: y :: ys

/-- TextModel.tsx line 95: `.sort((a, b) => b.area - a.area)`.  JS `Array.sort`
is stable (ES2019); embedded as a stable insertion sort on the same key. -/
def sortByAreaDesc : List ShapeInfo → List ShapeInfo
  | [] => []
  | x :: xs => insertByAreaDesc x (sortByAreaDesc xs)

/-- TextModel.tsx lines 111-121: a hole candidate is claimed by an outer shape
when its bounding box is contained in the outer's bounding box and its
representative point — `holeInfo.shape.getPoints(1)[0]`, the first point of the
contour — lies inside the outer polygon. -/
def holePasses (outer hole : ShapeInfo) : Bool :=
  bboxContained hole.bbox outer.bbox && isPointInShape outer.shape (hole.shape.headD ⟨0, 0⟩)

/-- An outer contour together with the holes assigned to it
(`shape.holes = holes` at TextModel.tsx line 125). -/
structure ClassifiedShape where
  outer : List Pt
  holes : List (List Pt)
deriving DecidableEq, Repr

/-- One iteration of the outer loop at TextModel.tsx lines 101-127.  The inner
loop walks `remainingHoles` from the last index down to 0, pushing each passing
candidate and splicing it out: the claimed holes are the passing pool elements
in reverse pool order, and the new pool is the non-passing elements in their
original order (the test depends only on the outer and the candidate). -/
def classifyStep (st : List ShapeInfo × List ClassifiedShape) (o : ShapeInfo) :
    List ShapeInfo × List ClassifiedShape :=
  (st.1.filter (fun h => !holePasses o h),
   st.2 ++ [⟨o.shape, (st.1.reverse.filter (holePasses o)).map (·.shape)⟩])

/-- TextModel.tsx lines 84-127: contour classification.  Contours are annotated
(`mkShapeInfo`), sorted by absolute area descending, split into outer
candidates (`!isHole`) and the hole pool (`isHole`), and the outer candidates
are processed largest-first, each claiming the contained holes. -/
def classify (contours : List (List Pt)) : List ClassifiedShape :=
  let sorted := sortByAreaDesc (contours.map mkShapeInfo)
  let outers := sorted.filter (fun s => !s.isHole)
  let pool := sorted.filter (fun s => s.isHole)
  (outers.foldl classifyStep (pool, [])).2

/-- Both containment conditions of the hole-claiming test, stated on raw
contours, together with the positive-signed-area winding condition every pool
member satisfies. -/
def holeOk (outer hole : List Pt) : Prop :=
  0 < calculateShapeArea hole ∧
  bboxContained (computeBBox hole) (computeBBox outer) = true ∧
  isPointInShape outer (hole.headD ⟨0, 0⟩) = true

/-- Path commands fed to the shape-building loop of TextModel.tsx lines 69-82.
Only the `M`/`L`/`Z` cases are embedded: the `Q`/`C` cases build three.js curve
objects whose flattening is library code, and no claim settled against this
pipeline depends on them (the inputs used are empty or polygonal).  The `y`
values are the raw font values; the `-cmd.y` flip of the source is applied by
`buildShapes`. -/
inductive PathSeg where
  | moveTo (x y : ℚ)
  | lineTo (x y : ℚ)
  | closePath
deriving DecidableEq, Repr

/-- A `THREE.Shape` under construction: its polyline points and whether
`closePath()` was called (three.js `autoClose`). -/
structure ShapeAcc where
  pts : List Pt
  closed : Bool
deriving DecidableEq, Repr

/-- Replaces the last element of a list (the source's
`shapes[shapes.length - 1].…`).  A leading non-`moveTo` command dereferences
`undefined` in JS and throws; font paths always begin with `M`, and no claim
depends on that case, so it is embedded as a no-op on the empty list. -/
def updateLast (f : ShapeAcc → ShapeAcc) : List ShapeAcc → List ShapeAcc
  | [] => []
  | [s] => [f s]
  | s :: rest => s :: updateLast f rest

/-- TextModel.tsx lines 69-82: `M` pushes a new shape and moves to
`(cmd.x, -cmd.y)`, `L` appends `(cmd.x, -cmd.y)` to the current shape, `Z`
closes the current shape. -/
def buildShapes (cmds : List PathSeg) : List ShapeAcc :=
  cmds.foldl (fun shapes c =>
    match c with
    | .moveTo x y => shapes ++ [⟨[⟨x, -y⟩], false⟩]
    | .lineTo x y => updateLast (fun s => ⟨s.pts ++ [⟨x, -y⟩], s.closed⟩) shapes
    | .closePath => updateLast (fun s => ⟨s.pts, true⟩) shapes) []

/-- Point extraction from a built shape (three.js `getPoints` on a polyline
shape): the stored points, with the start point appended when the shape was
closed and does not already end at its start. -/
def shapePoints (s : ShapeAcc) : List Pt :=
  if s.closed && decide (s.pts.getLast? ≠ s.pts.head?) then
    s.pts ++ [s.pts.headD ⟨0, 0⟩]
  else s.pts

/-- Error kind named by the spec for the classification stage
(`EmptyGeometryError`).  The source has no raise site for it: the constructor
exists so the claims about it can be stated, and `createGeometries` below never
produces it. -/
inductive PipelineError where
  | emptyGeometryError
deriving DecidableEq, Repr

/-- A call to `THREE.ExtrudeGeometry(shapes, { depth, ... })` (external
library), recorded with its arguments. -/
structure ExtrudeGeometrySpec where
  shapes : List ClassifiedShape
  depth : ℚ
deriving DecidableEq, Repr

/-- Result of the geometry `useMemo` body of TextModel.tsx lines 57-135. -/
structure GeometryResult where
  mainShapes : List ClassifiedShape
  foreground : ExtrudeGeometrySpec
  background : ExtrudeGeometrySpec
deriving DecidableEq, Repr

/-- TextModel.tsx lines 57-135: build shapes from the path commands, classify
them, then unconditionally call `ExtrudeGeometry` on `mainShapes` (line 130)
and on the offset background shapes (line 172) — there is no emptiness check
between classification and extrusion.  `offsetFn` abstracts the
`createParallelOffset`-based background construction (lines 137-170), whose
transcendental arc geometry no settled claim depends on. -/
def createGeometries (offsetFn : ClassifiedShape → ClassifiedShape)
    (cmds : List PathSeg) (foregroundDepth backgroundDepth : ℚ) :
    Except PipelineError GeometryResult :=
  let mains := classify ((buildShapes cmds).map shapePoints)
  Except.ok
    { mainShapes := mains
      foreground := ⟨mains, foregroundDepth⟩
      background := ⟨mains.map offsetFn, backgroundDepth⟩ }

/-- Iteration count of the quadratic flattening loop
(`const qSteps = 6`, part_005 line 146). -/
def qSteps : ℕ := 6

/-- Iteration count of the cubic flattening loop
(`const steps = 8`, part_005 line 121). -/
def cubicSteps : ℕ := 8

/-- part_005 lines 144-163 (`case 'Q'`): for `i = 1 .. qSteps`, with
`t = i / qSteps`, push the quadratic blend whose start is
`currentContour[currentContour.length - 1]` — reread inside the loop, hence the
previously pushed point from the second iteration on.  The `y` blend uses
`-cmd.y1` and `-cmd.y` (coordinate flip), matching the source. -/
def appendQuadraticPoints (contour : List Pt) (x1 y1 x y : ℚ) : List Pt :=
  (List.range qSteps).foldl (fun c k =>
    let t : ℚ := ((k : ℚ) + 1) / (qSteps : ℚ)
    let mt := 1 - t
    let lastPt := c.getLastD ⟨0, 0⟩
    c ++ [⟨mt * mt * lastPt.x + 2 * mt * t * x1 + t * t * x,
           mt * mt * lastPt.y + 2 * mt * t * (-y1) + t * t * (-y)⟩]) contour

/-- part_005 lines 119-142 (`case 'C'`): the cubic analogue, `steps = 8`,
control points `(cmd.x1, -cmd.y1)`, `(cmd.x2, -cmd.y2)`, end `(cmd.x, -cmd.y)`,
again rereading the contour's last point inside the loop. -/
def appendCubicPoints (contour : List Pt) (x1 y1 x2 y2 x y : ℚ) : List Pt :=
  (List.range cubicSteps).foldl (fun c k =>
    let t : ℚ := ((k : ℚ) + 1) / (cubicSteps : ℚ)
    let mt := 1 - t
    let lastPt := c.getLastD ⟨0, 0⟩
    c ++ [⟨mt * mt * mt * lastPt.x + 3 * mt * mt * t * x1 + 3 * mt * t * t * x2 + t * t * t * x,
           mt * mt * mt * lastPt.y + 3 * mt * mt * t * (-y1) + 3 * mt * t * t * (-y2)
             + t * t * t * (-y)⟩]) contour

/-- The standard quadratic Bezier polynomial blend
`B(t) = (1-t)^2 p0 + 2 (1-t) t c + t^2 p1`.  This is the curve the claim says
the flattening samples; it is stated from the spec's words ("the standard
polynomial blend" with "the curve start" fixed at the moment the command
begins) for comparison with `appendQuadraticPoints`. -/
def quadBezierPoint (p0 c p1 : Pt) (t : ℚ) : Pt :=
  ⟨(1 - t) * (1 - t) * p0.x + 2 * (1 - t) * t * c.x + t * t * p1.x,
   (1 - t) * (1 - t) * p0.y + 2 * (1 - t) * t * c.y + t * t * p1.y⟩

/-- main.tsx line 196: the text geometry is extruded with
`depth: text.thickness + text.overlap`. -/
def textTotalDepth (textThickness overlap : ℚ) : ℚ := textThickness + overlap

/-- main.tsx line 232: `textStartZ = backgroundThickness - overlap`. -/
def textStartZ (backgroundThickness overlap : ℚ) : ℚ := backgroundThickness - overlap

/-- main.tsx line 233: `textCenterZ = textStartZ + totalTextDepth / 2`; the
mesh is positioned there (`textMesh.position.z = textCenterZ`, line 234). -/
def textCenterZ (backgroundThickness textThickness overlap : ℚ) : ℚ :=
  textStartZ backgroundThickness overlap + textTotalDepth textThickness overlap / 2

/-- Z-extent of the positioned text solid: `TextGeometry` is centered
(`textGeo.center()`, line 201), so it spans `±totalTextDepth/2` around
`textCenterZ`. -/
def textZInterval (backgroundThickness textThickness overlap : ℚ) : ℚ × ℚ :=
  (textCenterZ backgroundThickness textThickness overlap
     - textTotalDepth textThickness overlap / 2,
   textCenterZ backgroundThickness textThickness overlap
     + textTotalDepth textThickness overlap / 2)

/-- Z-extent of the pill background: extruded with
`depth: background.thickness` (main.tsx line 348) and positioned at the origin
(`pillMesh.position.set(0, 0, 0)`, line 370), so it spans `[0, thickness]`. -/
def pillZInterval (backgroundThickness : ℚ) : ℚ × ℚ := (0, backgroundThickness)

/-- Z-extents of the foreground and background meshes of the TextModel.tsx
preview (lines 236-248): both geometries are extruded from `z = 0` to their
depth (translations at lines 179-187 leave z unchanged), the background mesh
sits at `position z = -backgroundDepth` and the foreground mesh at `z = 0`. -/
def textModelZIntervals (foregroundDepth backgroundDepth : ℚ) : (ℚ × ℚ) × (ℚ × ℚ) :=
  ((0, foregroundDepth), (0 - backgroundDepth, backgroundDepth - backgroundDepth))

/-- A 3D vertex. -/
structure Vec3 where
  x : ℚ
  y : ℚ
  z : ℚ
deriving DecidableEq, Repr

/-- The `upAxis` export option of ThreeMFExporter.ts. -/
inductive UpAxis where
  | Y_UP
  | Z_UP
  | X_UP
deriving DecidableEq, Repr

/-- ThreeMFExporter.ts lines 335-345 (`transformCoordinates`).  The source
returns JS object literals whose properties bind by KEY, not by position:
`{ x, z, y: -y }` is the object with `x = x`, `y = -y`, `z = z` (no swap), and
`{ y, z, x }` is `{ x = x, y = y, z = z }` (the identity).  The embedding
reproduces these key-based semantics; the trailing `else` branch of the source
(identity) is unreachable over the three-constructor enum. -/
def transformCoordinates (upAxis : UpAxis) (v : Vec3) : Vec3 :=
  match upAxis with
  | .Y_UP => ⟨v.x, v.y, v.z⟩
  | .Z_UP => ⟨v.x, -v.y, v.z⟩
  | .X_UP => ⟨v.x, v.y, v.z⟩

/-- A `THREE.BufferGeometry` as consumed by the exporter: the optional
`attributes.position` (list of vertices) and the optional `index` (flat list
of vertex indices). -/
structure Geometry where
  position : Option (List Vec3)
  index : Option (List ℕ)
deriving DecidableEq, Repr

/-- The vertex count the exporter reads (`positions.count`); 0 when the
attribute is absent. -/
def vertexCount (g : Geometry) : ℕ := (g.position.getD []).length

/-- ThreeMFExporter.ts lines 174-197 (`generateTrianglesXML`), content level:
the list of `(v1, v2, v3)` index triples written as `<triangle>` elements.
Indexed: `for (i = 0; i < indices.count; i += 3)` emitting
`getX(i), getX(i+1), getX(i+2)`; non-indexed: the same loop over the position
count emitting `i, i+1, i+2`.  No bounds check is performed in either branch.
`getD _ 0` renders the out-of-range `getX` reads of a truncated final chunk;
in-range reads are unaffected. -/
def generateTriangles (g : Geometry) : List (ℕ × ℕ × ℕ) :=
  match g.index with
  | some idx =>
      (List.range ((idx.length + 2) / 3)).map
        (fun j => (idx.getD (3 * j) 0, idx.getD (3 * j + 1) 0, idx.getD (3 * j + 2) 0))
  | none =>
      (List.range ((vertexCount g + 2) / 3)).map
        (fun j => (3 * j, 3 * j + 1, 3 * j + 2))

/-- Error kinds of `ThreeMFExporter.export`: `throw new Error('No meshes found
in scene')` (line 33; the spec's `EmptyModelError`) and `throw new
Error('Geometry has no position attribute')` (line 156). -/
inductive ExportError where
  | noMeshesFound
  | noPositionAttribute
deriving DecidableEq, Repr

/-- Export options (lines 4-7); `unit` tags the `<model unit="...">`
attribute. -/
structure ExportOptions where
  upAxis : UpAxis
  unit : String
deriving DecidableEq, Repr

/-- ThreeMFExporter.ts lines 153-172 (`generateVerticesXML`), content level:
throws when the geometry has no position attribute, otherwise emits one
transformed vertex per position entry.  The throw happens before any vertex is
written, so no partial block exists for a failing geometry. -/
def generateVertices (opts : ExportOptions) (g : Geometry) : Except ExportError (List Vec3) :=
  match g.position with
  | none => Except.error ExportError.noPositionAttribute
  | some ps => Except.ok (ps.map (transformCoordinates opts.upAxis))

/-- The `<mesh>` content of one `<object>` in the assembly model file. -/
structure ObjectMesh where
  vertices : List Vec3
  triangles : List (ℕ × ℕ × ℕ)
deriving DecidableEq, Repr

/-- ThreeMFExporter.ts lines 134-144: one object's mesh block — vertices first
(which can throw), then triangles. -/
def generateObjectMesh (opts : ExportOptions) (g : Geometry) : Except ExportError ObjectMesh := do
  let vs ← generateVertices opts g
  pure ⟨vs, generateTriangles g⟩

/-- Material classes the exporter's `instanceof` checks recognise, plus the
classes it does not (`MeshLambertMaterial` among them). -/
inductive MaterialClass where
  | meshBasic
  | meshPhong
  | meshStandard
  | meshLambert
  | other
deriving DecidableEq, Repr

/-- A three.js material as the exporter sees it: its class and its optional
colour, carried as the lowercase hex string `getHexString()` returns. -/
structure Material where
  cls : MaterialClass
  color : Option String
deriving DecidableEq, Repr

/-- A `THREE.Mesh` collected from the scene. -/
structure Mesh where
  name : String
  geometry : Geometry
  materials : List Material
deriving DecidableEq, Repr

/-- ThreeMFExporter.ts line 201: `const extruderColors = ['#FEC600',
'#0086D6', '#FF0000', '#00FF00']; // Default colors`. -/
def extruderColors : List String := ["#FEC600", "#0086D6", "#FF0000", "#00FF00"]

/-- The `instanceof MeshBasicMaterial || MeshPhongMaterial ||
MeshStandardMaterial` check of lines 227-229. -/
def colorSupported (c : MaterialClass) : Bool :=
  match c with
  | .meshBasic => true
  | .meshPhong => true
  | .meshStandard => true
  | _ => false

/-- ThreeMFExporter.ts lines 222-238 (`generateProjectSettingsXML`, the
`filament_colour` entries): start from the palette colour
`extruderColors[i % extruderColors.length]`, overridden by
`'#' + material.color.getHexString().toUpperCase()` only when the material
passes the `instanceof` check and has a colour.  `Array.isArray(material) ?
material[0] : material` is modelled by `materials.head?` (a scalar material is
the singleton list). -/
def meshFilamentColour (i : ℕ) (m : Mesh) : String :=
  let fallback := extruderColors.getD (i % extruderColors.length) ""
  match m.materials.head? with
  | some mat =>
      if colorSupported mat.cls then
        match mat.color with
        | some c => "#" ++ c.toUpper
        | none => fallback
      else fallback
  | none => fallback

/-- The full `filament_colour` list: one entry per mesh, in scene order. -/
def filamentColours (meshes : List Mesh) : List String :=
  meshes.enum.map (fun im => meshFilamentColour im.1 im.2)

/-- textMeshGenerator.ts lines 36-41: text meshes are built with
`new THREE.MeshLambertMaterial({ color: style.textColor })`. -/
def generateTextMeshMaterial (textColor : String) : Material :=
  ⟨MaterialClass.meshLambert, some textColor⟩

/-- The package content relevant to the claims: the per-object mesh blocks of
`3D/Objects/object_3.model` and the `filament_colour` list of
`Metadata/project_settings.config`.  (The remaining package members —
content types, relationship files, the main model with its components — are
fixed-shape XML carrying no per-vertex data.) -/
structure Package where
  objects : List ObjectMesh
  filamentColoursOut : List String
deriving DecidableEq, Repr

/-- ThreeMFExporter.ts lines 134-144: the `meshes.forEach` of
`generateAssemblyObjectXML`, emitting one object block per mesh in order; the
first geometry without positions throws and aborts the whole loop. -/
def generateObjectMeshes (opts : ExportOptions) : List Mesh → Except ExportError (List ObjectMesh)
  | [] => Except.ok []
  | m :: rest => do
    let o ← generateObjectMesh opts m.geometry
    let os ← generateObjectMeshes opts rest
    pure (o :: os)

/-- ThreeMFExporter.ts lines 22-70 (`export`): collect the scene's meshes,
throw `noMeshesFound` when there are none (lines 32-34), then build the
assembly object file (whose vertex generation can throw per mesh) and the
metadata, and only then assemble the ZIP.  Any thrown error aborts before any
package bytes exist. -/
def exportScene (opts : ExportOptions) (meshes : List Mesh) : Except ExportError Package :=
  if meshes.isEmpty then Except.error ExportError.noMeshesFound
  else do
    let objs ← generateObjectMeshes opts meshes
    pure ⟨objs, filamentColours meshes⟩

/-- Well-formedness of a geometry for the index-bound property: an indexed
geometry stores whole triangles whose index values are in range, a non-indexed
geometry has a whole number of position triples.  `generateTrianglesXML`
checks none of this; the property below fails without it. -/
def wellFormedGeometry (g : Geometry) : Prop :=
  match g.index with
  | some idx => idx.length % 3 = 0 ∧ ∀ v ∈ idx, v < vertexCount g
  | none => vertexCount g % 3 = 0

/-- Concrete contour: counter-clockwise unit-4 square, signed area `+16`
(a hole candidate under the source's winding convention). -/
def sqPos : List Pt := [⟨0, 0⟩, ⟨4, 0⟩, ⟨4, 4⟩, ⟨0, 4⟩, ⟨0, 0⟩]

/-- Concrete contour: the same square traversed clockwise, signed area `-16`
(an outer candidate under the source's winding convention). -/
def sqNeg : List Pt := [⟨0, 0⟩, ⟨0, 4⟩, ⟨4, 4⟩, ⟨4, 0⟩, ⟨0, 0⟩]

/-- Concrete contour: counter-clockwise square inside `sqNeg`, signed area
`+4`. -/
def holeSq : List Pt := [⟨1, 1⟩, ⟨3, 1⟩, ⟨3, 3⟩, ⟨1, 3⟩, ⟨1, 1⟩]

/-- Concrete contour: clockwise 6×6 square, signed area `-36`. -/
def outerSqW : List Pt := [⟨0, 0⟩, ⟨0, 6⟩, ⟨6, 6⟩, ⟨6, 0⟩, ⟨0, 0⟩]

/-- Concrete contour: counter-clockwise square inside `outerSqW`, signed area
`+4`. -/
def holeSqW : List Pt := [⟨2, 2⟩, ⟨4, 2⟩, ⟨4, 4⟩, ⟨2, 4⟩, ⟨2, 2⟩]

/-- Concrete geometry: non-indexed with 4 position entries (not a whole number
of triangles). -/
def geomNonIndexed4 : Geometry :=
  ⟨some [⟨0, 0, 0⟩, ⟨1, 0, 0⟩, ⟨0, 1, 0⟩, ⟨1, 1, 0⟩], none⟩

/-- Concrete geometry: non-indexed with 6 position entries (two whole
triangles). -/
def geomNonIndexed6 : Geometry :=
  ⟨some [⟨0, 0, 0⟩, ⟨1, 0, 0⟩, ⟨0, 1, 0⟩, ⟨0, 0, 1⟩, ⟨1, 0, 1⟩, ⟨0, 1, 1⟩], none⟩

/-- Concrete mesh: carries exactly the material `generateTextMesh` constructs,
a Lambert material coloured `12abcd`. -/
def lambertTextMesh : Mesh :=
  ⟨"Text", ⟨some [⟨0, 0, 0⟩, ⟨1, 0, 0⟩, ⟨0, 1, 0⟩], none⟩, [generateTextMeshMaterial "12abcd"]⟩

/-- Concrete mesh identical to `lambertTextMesh` except that its material
class is one the exporter's `instanceof` check recognises. -/
def standardTextMesh : Mesh :=
  ⟨"Text", ⟨some [⟨0, 0, 0⟩, ⟨1, 0, 0⟩, ⟨0, 1, 0⟩], none⟩,
   [⟨MaterialClass.meshStandard, some "12abcd"⟩]⟩

/-- Concrete mesh whose geometry has no position attribute. -/
def meshNoPosition : Mesh := ⟨"broken", ⟨none, none⟩, []⟩

/-- The exporter's default options (constructor lines 13-20). -/
def defaultExportOptions : ExportOptions := ⟨UpAxis.Y_UP, "millimeter"⟩

/-- Membership in a stable area-descending insertion. -/
theorem mem_insertByAreaDesc {x y : ShapeInfo} {l : List ShapeInfo} :
    y ∈ insertByAreaDesc x l ↔ y = x ∨ y ∈ l := by
  induction l with
  | nil => simp [insertByAreaDesc]
  | cons z zs ih =>
    simp only [insertByAreaDesc]
    split <;> simp [ih] <;> tauto

/-- Sorting by area does not change the membership of the contour list. -/
theorem mem_sortByAreaDesc {l : List ShapeInfo} {y : ShapeInfo} :
    y ∈ sortByAreaDesc l ↔ y ∈ l := by
  induction l with
  | nil => simp [sortByAreaDesc]
  | cons x xs ih => simp [sortByAreaDesc, mem_insertByAreaDesc, ih]

/-- Invariant of the hole-claiming fold: provided every pool element is an
annotated contour flagged as a hole and every outer candidate is an annotated
contour, every hole attached by the fold satisfies `holeOk` against its
outer. -/
theorem classify_foldl_holes (outers pool : List ShapeInfo) (acc : List ClassifiedShape)
    (hpool : ∀ i ∈ pool, (∃ c, i = mkShapeInfo c) ∧ i.isHole = true)
    (houters : ∀ o ∈ outers, ∃ c, o = mkShapeInfo c)
    (hacc : ∀ s ∈ acc, ∀ h ∈ s.holes, holeOk s.outer h) :
    ∀ s ∈ (outers.foldl classifyStep (pool, acc)).2, ∀ h ∈ s.holes, holeOk s.outer h := by
  induction outers generalizing pool acc with
  | nil => simpa using hacc
  | cons o os ih =>
    simp only [List.foldl_cons]
    apply ih
    · intro i hi
      exact hpool i (List.mem_of_mem_filter hi)
    · intro o' ho'
      exact houters o' (List.mem_cons_of_mem _ ho')
    · intro s hs
      simp only [classifyStep, List.mem_append, List.mem_singleton] at hs
      rcases hs with hs | hs
      · exact hacc s hs
      · subst hs
        intro h hh
        simp only [List.mem_map, List.mem_filter, List.mem_reverse] at hh
        obtain ⟨i, ⟨hipool, hipass⟩, rfl⟩ := hh
        obtain ⟨⟨c, rfl⟩, hhole⟩ := hpool i hipool
        obtain ⟨c', rfl⟩ := houters o (List.mem_cons_self _ _)
        simp only [holePasses, Bool.and_eq_true] at hipass
        refine ⟨?_, ?_, ?_⟩
        · simpa [mkShapeInfo] using hhole
        · simpa [mkShapeInfo] using hipass.1
        · simpa [mkShapeInfo] using hipass.2

/-- Every hole of every classified shape passes the winding and containment
tests. -/
theorem classify_holes_ok (contours : List (List Pt)) :
    ∀ s ∈ classify contours, ∀ h ∈ s.holes, holeOk s.outer h := by
  apply classify_foldl_holes
  · intro i hi
    simp only [List.mem_filter] at hi
    obtain ⟨hmem, hhole⟩ := hi
    rw [mem_sortByAreaDesc] at hmem
    simp only [List.mem_map] at hmem
    obtain ⟨c, _, rfl⟩ := hmem
    exact ⟨⟨c, rfl⟩, hhole⟩
  · intro o ho
    simp only [List.mem_filter] at ho
    obtain ⟨hmem, _⟩ := ho
    rw [mem_sortByAreaDesc] at hmem
    simp only [List.mem_map] at hmem
    obtain ⟨c, _, rfl⟩ := hmem
    exact ⟨c, rfl⟩
  · simp

/-- The fold emits exactly one classified shape per outer candidate, in
order. -/
theorem classify_foldl_outers (outers : List ShapeInfo) (pool : List ShapeInfo)
    (acc : List ClassifiedShape) :
    ((outers.foldl classifyStep (pool, acc)).2).map (·.outer) =
      acc.map (·.outer) ++ outers.map (·.shape) := by
  induction outers generalizing pool acc with
  | nil => simp
  | cons o os ih =>
    simp only [List.foldl_cons, ih, classifyStep, List.map_append]
    simp

/-- Claim C1 (code_bug evaluation).  The claim says `transformCoordinates` is
the identity under `Y_UP`, swaps Y/Z and negates Y under `Z_UP` (so `(1,2,3)`
becomes `(1,3,-2)`) and cyclically rotates the axes under `X_UP` (so `(1,2,3)`
becomes `(2,3,1)`).  The code's JS object literals bind by key, so `Z_UP`
actually yields `(1,-2,3)` (Y negated in place, no swap) and `X_UP` is the
identity — the evaluation below exhibits both divergences at the claim's own
test vector. -/
theorem transformCoordinates_upAxis_bug :
    transformCoordinates UpAxis.Y_UP ⟨1, 2, 3⟩ = ⟨1, 2, 3⟩ ∧
    transformCoordinates UpAxis.Z_UP ⟨1, 2, 3⟩ = ⟨1, -2, 3⟩ ∧
    transformCoordinates UpAxis.Z_UP ⟨1, 2, 3⟩ ≠ ⟨1, 3, -2⟩ ∧
    transformCoordinates UpAxis.X_UP ⟨1, 2, 3⟩ = ⟨1, 2, 3⟩ ∧
    transformCoordinates UpAxis.X_UP ⟨1, 2, 3⟩ ≠ ⟨2, 3, 1⟩ := by
  refine ⟨rfl, rfl, ?_, rfl, ?_⟩ <;>
    (simp only [transformCoordinates, ne_eq, Vec3.mk.injEq, not_and]; norm_num)

/-- Claim C2: when the scene supplies zero meshes, `export` fails with the
no-meshes error (the spec's `EmptyModelError`) and produces no package — in
particular it never returns an empty but structurally valid archive, since the
error is raised before any file content is assembled. -/
theorem exportScene_empty_scene_error (opts : ExportOptions) :
    exportScene opts [] = Except.error ExportError.noMeshesFound := rfl

/-- Claim C3 (counterexample).  The same square contour, identical up to
traversal direction (same absolute area, no other contours, so identical area
ordering and containment situation), is classified as an outer shape when
wound clockwise but yields no outer shape at all when wound counter-clockwise:
classification does depend on a fixed winding convention on the sign of the
signed area, contradicting the claim. -/
theorem classify_winding_sign_cex :
    calculateShapeArea sqPos = 16 ∧ calculateShapeArea sqNeg = -16 ∧
    |calculateShapeArea sqPos| = |calculateShapeArea sqNeg| ∧
    classify [sqPos] = [] ∧
    classify [sqNeg] = [⟨sqNeg, []⟩] := by
  refine ⟨?_, ?_, ?_, ?_, ?_⟩ <;>
    norm_num [classify, sqPos, sqNeg, mkShapeInfo, calculateShapeArea, cyclicPairs,
      sortByAreaDesc, insertByAreaDesc, classifyStep, holePasses, bboxContained,
      computeBBox, isPointInShape, edgePairs]

/-- Claim C3 (amended).  Classification sorts the contours by absolute signed
area in descending order, but outer-versus-hole status is decided by the fixed
winding convention `isHole := signed area > 0`: the outer shapes are exactly
the non-positive-area contours in sorted order, and every contour attached as
a hole has positive signed area and additionally passed the containment tests
(bounding box containment and ray-casting point-in-polygon). -/
theorem classify_sorted_sign_and_containment (contours : List (List Pt)) :
    (classify contours).map (·.outer) =
      ((sortByAreaDesc (contours.map mkShapeInfo)).filter (fun s => !s.isHole)).map (·.shape) ∧
    ∀ s ∈ classify contours, ∀ h ∈ s.holes,
      0 < calculateShapeArea h ∧
      (bboxContained (computeBBox h) (computeBBox s.outer) &&
        isPointInShape s.outer (h.headD ⟨0, 0⟩)) = true := by
  constructor
  · simpa [classify] using
      classify_foldl_outers
        ((sortByAreaDesc (contours.map mkShapeInfo)).filter (fun s => !s.isHole))
        ((sortByAreaDesc (contours.map mkShapeInfo)).filter (fun s => s.isHole)) []
  · intro s hs h hh
    obtain ⟨ha, hb, hc⟩ := classify_holes_ok contours s hs h hh
    exact ⟨ha, by rw [Bool.and_eq_true]; exact ⟨hb, hc⟩⟩

/-- Claim C3 (witness): the amended theorem applied to the concrete
clockwise-square-with-hole input. -/
theorem classify_sorted_sign_and_containment_witness :
    0 < calculateShapeArea holeSq ∧
    (bboxContained (computeBBox holeSq) (computeBBox sqNeg) &&
      isPointInShape sqNeg (holeSq.headD ⟨0, 0⟩)) = true := by
  have hcl : classify [sqNeg, holeSq] = [⟨sqNeg, [holeSq]⟩] := by
    norm_num [classify, sqNeg, holeSq, mkShapeInfo, calculateShapeArea, cyclicPairs,
      sortByAreaDesc, insertByAreaDesc, classifyStep, holePasses, bboxContained,
      computeBBox, isPointInShape, edgePairs]
  simpa using
    (classify_sorted_sign_and_containment [sqNeg, holeSq]).2
      ⟨sqNeg, [holeSq]⟩ (by simp [hcl]) holeSq (by simp)

/-- Claim C4: every contour attached as a hole to a classified shape has its
bounding box fully contained in the outer contour's bounding box, and its
representative point (the contour's first point) lies inside the outer contour
according to the ray-casting point-in-polygon test. -/
theorem classify_holes_contained (contours : List (List Pt)) :
    ∀ s ∈ classify contours, ∀ h ∈ s.holes,
      bboxContained (computeBBox h) (computeBBox s.outer) = true ∧
      isPointInShape s.outer (h.headD ⟨0, 0⟩) = true := by
  intro s hs h hh
  exact (classify_holes_ok contours s hs h hh).2

/-- Claim C4 (witness): the invariant applied to a concrete 6×6 outer square
with a contained hole. -/
theorem classify_holes_contained_witness :
    bboxContained (computeBBox holeSqW) (computeBBox outerSqW) = true ∧
    isPointInShape outerSqW (holeSqW.headD ⟨0, 0⟩) = true := by
  have hcl : classify [outerSqW, holeSqW] = [⟨outerSqW, [holeSqW]⟩] := by
    norm_num [classify, outerSqW, holeSqW, mkShapeInfo, calculateShapeArea, cyclicPairs,
      sortByAreaDesc, insertByAreaDesc, classifyStep, holePasses, bboxContained,
      computeBBox, isPointInShape, edgePairs]
  simpa using
    classify_holes_contained [outerSqW, holeSqW]
      ⟨outerSqW, [holeSqW]⟩ (by simp [hcl]) holeSqW (by simp)

/-- Claim C5 (counterexample).  With `backgroundDepth = 2`, `textThickness =
1`, `overlap = 1/20`, the positioned foreground starts at exactly
`backgroundDepth - overlap = 39/20`; the claim's strict inequality
`backgroundDepth - overlap < foreground z-start` therefore fails — the start
is equal to the bound, not strictly above it. -/
theorem positioning_overlap_strict_cex :
    (textZInterval 2 1 (1/20)).1 = 2 - 1/20 ∧
    ¬(2 - 1/20 < (textZInterval 2 1 (1/20)).1) := by
  norm_num [textZInterval, textCenterZ, textStartZ, textTotalDepth]

/-- Claim C5 (amended).  After positioning (main.tsx lines 196, 222-234,
347-370), the background occupies `z ∈ [0, backgroundDepth]`, the foreground
starts at exactly `z = backgroundDepth - overlap` (not strictly above it) and
ends at `backgroundDepth + textThickness`, and for every `overlap` with
`0 < overlap ≤ backgroundDepth` the two solids share a z-range of length
exactly `overlap > 0`. -/
theorem positioning_joint_overlap (bt tt ov : ℚ)
    (hov : 0 < ov) (hovbt : ov ≤ bt) (htt : 0 ≤ tt) :
    pillZInterval bt = (0, bt) ∧
    (textZInterval bt tt ov).1 = bt - ov ∧
    (textZInterval bt tt ov).2 = bt + tt ∧
    (textZInterval bt tt ov).1 < bt ∧
    min (pillZInterval bt).2 (textZInterval bt tt ov).2
      - max (pillZInterval bt).1 (textZInterval bt tt ov).1 = ov ∧
    0 < min (pillZInterval bt).2 (textZInterval bt tt ov).2
      - max (pillZInterval bt).1 (textZInterval bt tt ov).1 := by
  have h1 : (textZInterval bt tt ov).1 = bt - ov := by
    simp only [textZInterval, textCenterZ, textStartZ, textTotalDepth]
    ring
  have h2 : (textZInterval bt tt ov).2 = bt + tt := by
    simp only [textZInterval, textCenterZ, textStartZ, textTotalDepth]
    ring
  have hmin : min (pillZInterval bt).2 (textZInterval bt tt ov).2 = bt := by
    rw [h2]; simp only [pillZInterval]
    exact min_eq_left (by linarith)
  have hmax : max (pillZInterval bt).1 (textZInterval bt tt ov).1 = bt - ov := by
    rw [h1]; simp only [pillZInterval]
    exact max_eq_right (by linarith)
  refine ⟨rfl, h1, h2, by rw [h1]; linarith, by rw [hmin, hmax]; ring, ?_⟩
  rw [hmin, hmax]; linarith

/-- Claim C5 (witness): the amended joint-overlap theorem at the keychain
parameters (background 2mm, text 1mm, overlap 0.05mm). -/
theorem positioning_joint_overlap_witness :
    (0 : ℚ) < 1/20 ∧ (1/20 : ℚ) ≤ 2 ∧ (0 : ℚ) ≤ 1 ∧ (textZInterval 2 1 (1/20)).1 < 2 :=
  ⟨by norm_num, by norm_num, by norm_num,
   (positioning_joint_overlap 2 1 (1/20) (by norm_num) (by norm_num) (by norm_num)).2.2.2.1⟩

/-- Claim C6 (counterexample).  On the empty command list (text `""`), the
geometry pipeline completes successfully: it signals no error of any kind (in
particular no `EmptyGeometryError`) and calls `ExtrudeGeometry` on the empty
shape set for both the foreground and the background, contradicting the
claim that extrusion is never attempted on an empty shape set. -/
theorem createGeometries_no_error_cex :
    createGeometries id [] 1 2 =
      Except.ok ⟨[], ⟨[], 1⟩, ⟨[], 2⟩⟩ := rfl

/-- Claim C6 (amended).  For empty input — and whatever background offset
function and depths are used — classification yields zero outer shapes and the
pipeline nevertheless returns successfully, having invoked `ExtrudeGeometry`
with the empty shape list for both solids; no `EmptyGeometryError` is ever
signalled (the source has no raise site for it). -/
theorem createGeometries_empty_input (offsetFn : ClassifiedShape → ClassifiedShape)
    (fd bd : ℚ) :
    createGeometries offsetFn [] fd bd =
      Except.ok ⟨[], ⟨[], fd⟩, ⟨[], bd⟩⟩ := rfl

/-- Claim C7 (code_bug evaluation).  The flattening loop for a `QuadraticTo`
command rereads `currentContour[currentContour.length - 1]` on every
iteration, so from the second sample on the blend is taken from the previously
generated point instead of the curve start.  For the command with current last
point `(0,0)`, control point `(3,0)` and end point `(0,3)` (source values
`x1 = 3, y1 = 0, x = 0, y = -3` before the sign flip), the first sample equals
the true curve point `B(1/6)`, but the second sample is `(46/27, 10/27)`
whereas the evenly-parameterised point on the single Bezier curve is
`B(2/6) = (4/3, 1/3)`. -/
theorem appendQuadratic_drifting_start_bug :
    (appendQuadraticPoints [⟨0, 0⟩] 3 0 0 (-3)).getD 1 ⟨0, 0⟩ = ⟨5/6, 1/12⟩ ∧
    quadBezierPoint ⟨0, 0⟩ ⟨3, 0⟩ ⟨0, 3⟩ (1/6) = ⟨5/6, 1/12⟩ ∧
    (appendQuadraticPoints [⟨0, 0⟩] 3 0 0 (-3)).getD 2 ⟨0, 0⟩ = ⟨46/27, 10/27⟩ ∧
    quadBezierPoint ⟨0, 0⟩ ⟨3, 0⟩ ⟨0, 3⟩ (2/6) = ⟨4/3, 1/3⟩ ∧
    (appendQuadraticPoints [⟨0, 0⟩] 3 0 0 (-3)).getD 2 ⟨0, 0⟩ ≠
      quadBezierPoint ⟨0, 0⟩ ⟨3, 0⟩ ⟨0, 3⟩ (2/6) := by
  refine ⟨?_, ?_, ?_, ?_, ?_⟩ <;>
    norm_num [appendQuadraticPoints, quadBezierPoint, qSteps, Pt.mk.injEq,
      show List.range 6 = [0, 1, 2, 3, 4, 5] from rfl]

/-- Claim C8 (counterexample).  A non-indexed geometry with 4 position entries
makes the unguarded loop emit the triangle `(3, 4, 5)`, whose indices 4 and 5
are not less than the vertex count 4 — the claimed bound fails without a
well-formedness assumption. -/
theorem generateTriangles_out_of_range_cex :
    generateTriangles geomNonIndexed4 = [(0, 1, 2), (3, 4, 5)] ∧
    vertexCount geomNonIndexed4 = 4 ∧
    ¬((3, 4, 5) : ℕ × ℕ × ℕ).2.1 < vertexCount geomNonIndexed4 := by
  refine ⟨rfl, rfl, ?_⟩
  decide

/-- Claim C8 (amended).  Provided the geometry is well formed — indexed: whole
triangles with every stored index below the vertex count; non-indexed: a
vertex count divisible by 3 — every emitted `<triangle>` index is strictly
less than the number of emitted `<vertex>` entries for that object.  The
exporter itself performs no such check, and the property fails otherwise. -/
theorem generateTriangles_bounded (g : Geometry) (hg : wellFormedGeometry g) :
    ∀ t ∈ generateTriangles g,
      t.1 < vertexCount g ∧ t.2.1 < vertexCount g ∧ t.2.2 < vertexCount g := by
  intro t ht
  rcases hidx : g.index with _ | idx
  · simp only [generateTriangles, hidx, List.mem_map, List.mem_range] at ht
    simp only [wellFormedGeometry, hidx] at hg
    obtain ⟨j, hj, rfl⟩ := ht
    refine ⟨?_, ?_, ?_⟩
    · show 3 * j < vertexCount g
      omega
    · show 3 * j + 1 < vertexCount g
      omega
    · show 3 * j + 2 < vertexCount g
      omega
  · simp only [generateTriangles, hidx, List.mem_map, List.mem_range] at ht
    simp only [wellFormedGeometry, hidx] at hg
    obtain ⟨hlen, hbound⟩ := hg
    obtain ⟨j, hj, rfl⟩ := ht
    have h0 : 3 * j < idx.length := by omega
    have h1 : 3 * j + 1 < idx.length := by omega
    have h2 : 3 * j + 2 < idx.length := by omega
    refine ⟨?_, ?_, ?_⟩
    · rw [List.getD_eq_getElem _ _ h0]
      exact hbound _ (List.getElem_mem h0)
    · rw [List.getD_eq_getElem _ _ h1]
      exact hbound _ (List.getElem_mem h1)
    · rw [List.getD_eq_getElem _ _ h2]
      exact hbound _ (List.getElem_mem h2)

/-- Claim C8 (witness): the bound applied to a well-formed non-indexed
geometry with 6 vertices at its first emitted triangle. -/
theorem generateTriangles_bounded_witness :
    wellFormedGeometry geomNonIndexed6 ∧
    (((0, 1, 2) : ℕ × ℕ × ℕ).1 < vertexCount geomNonIndexed6 ∧
     ((0, 1, 2) : ℕ × ℕ × ℕ).2.1 < vertexCount geomNonIndexed6 ∧
     ((0, 1, 2) : ℕ × ℕ × ℕ).2.2 < vertexCount geomNonIndexed6) :=
  ⟨by simp [wellFormedGeometry, geomNonIndexed6, vertexCount],
   generateTriangles_bounded geomNonIndexed6
     (by simp [wellFormedGeometry, geomNonIndexed6, vertexCount])
     (0, 1, 2) (by decide)⟩

/-- Claim C9 (code_bug evaluation).  `generateTextMesh` builds its text meshes
with a `MeshLambertMaterial` carrying the style's colour, but the exporter's
`instanceof` check only recognises Basic/Phong/Standard materials, so for such
a mesh the emitted `filament_colour` is the default-palette entry `#FEC600`
instead of the material's own colour — the exported colour is taken from a
default palette even though the mesh has a material with a colour. -/
theorem filamentColour_lambert_palette_bug :
    lambertTextMesh.materials = [generateTextMeshMaterial "12abcd"] ∧
    (generateTextMeshMaterial "12abcd").color = some "12abcd" ∧
    filamentColours [lambertTextMesh] = ["#FEC600"] ∧
    filamentColours [standardTextMesh] = ["#" ++ "12abcd".toUpper] ∧
    "#FEC600" ≠ "#12ABCD" ∧ "#FEC600" ≠ "#12abcd" := by
  refine ⟨rfl, rfl, rfl, rfl, ?_, ?_⟩ <;> decide

/-- Reduction of `Except` bind on an error (definitional; stated for use as a
rewrite rule). -/
theorem except_error_bind {ε α β : Type} (e : ε) (k : α → Except ε β) :
    (Except.error e >>= k) = Except.error e := rfl

/-- Reduction of `Except` bind on a success (definitional; stated for use as a
rewrite rule). -/
theorem except_ok_bind {ε α β : Type} (v : α) (k : α → Except ε β) :
    (Except.ok v >>= k) = k v := rfl

/-- Propagation of a missing position attribute through the per-mesh object
loop: some mesh in the list has no positions, so the loop aborts with an
error. -/
theorem generateObjectMeshes_error (opts : ExportOptions) :
    ∀ ms : List Mesh, (∃ m ∈ ms, m.geometry.position = none) →
      ∃ e, generateObjectMeshes opts ms = Except.error e := by
  intro ms
  induction ms with
  | nil => simp
  | cons m rest ih =>
    intro h
    by_cases hp : m.geometry.position = none
    · refine ⟨ExportError.noPositionAttribute, ?_⟩
      simp [generateObjectMeshes, generateObjectMesh, generateVertices, hp,
        except_error_bind]
    · obtain ⟨m', hm', hmp⟩ := h
      rcases List.mem_cons.mp hm' with rfl | hmem
      · exact absurd hmp hp
      · obtain ⟨e, he⟩ := ih ⟨m', hmem, hmp⟩
        rcases hgen : generateObjectMesh opts m.geometry with e' | v
        · exact ⟨e', by simp [generateObjectMeshes, hgen, except_error_bind]⟩
        · exact ⟨e, by simp [generateObjectMeshes, hgen, he, except_ok_bind,
            except_error_bind]⟩

/-- Claim C10: if any mesh's geometry has no position attribute, the export
fails with an error before any package is produced, and for such a geometry
the vertex generator returns the error rather than any (empty or partial)
vertex block. -/
theorem exportScene_missing_position_error (opts : ExportOptions) (meshes : List Mesh)
    (h : ∃ m ∈ meshes, m.geometry.position = none) :
    (∃ e, exportScene opts meshes = Except.error e) ∧
    ∀ m ∈ meshes, m.geometry.position = none →
      generateVertices opts m.geometry = Except.error ExportError.noPositionAttribute := by
  constructor
  · have hne : meshes.isEmpty = false := by
      rcases h with ⟨m, hm, _⟩
      cases meshes with
      | nil => simp at hm
      | cons _ _ => rfl
    obtain ⟨e, he⟩ := generateObjectMeshes_error opts meshes h
    exact ⟨e, by simp [exportScene, hne, he]⟩
  · intro m _ hp
    simp [generateVertices, hp]

/-- Claim C10 (witness): the export-abort theorem at a concrete one-mesh scene
whose geometry lacks positions. -/
theorem exportScene_missing_position_error_witness :
    ∃ e, exportScene defaultExportOptions [meshNoPosition] = Except.error e :=
  (exportScene_missing_position_error defaultExportOptions [meshNoPosition]
    ⟨meshNoPosition, by simp, rfl⟩).1
